import Mathlib

/-!
Verification of the asynchronous execution engine of PassportAPP:
the background worker queue (`background_workers.py`) and the webhook
delivery system (`webhook_system.py`).

The Python classes are shallowly embedded as Lean structures and pure
state-passing functions.  External collaborators (the wall clock, the
HTTP stack, `hashlib`/`hmac`, `json.dumps`) are modelled as explicit
parameters: each execution attempt receives its outcome
(`Except`-valued for a function body that may raise, an `HttpOutcome`
for an outbound POST), and the HMAC hex digest and JSON serializer are
function parameters, since the repository only wires them together.
-/

namespace PassportApp

/-! ## Task priorities (`TaskPriority`, background_workers.py lines 14-19) -/

def TaskPriority.LOW : Int := 0

def TaskPriority.NORMAL : Int := 1

def TaskPriority.HIGH : Int := 2

def TaskPriority.CRITICAL : Int := 3

/-! ## Task (`Task.__init__`, background_workers.py lines 25-38)

Timestamps are logical `Nat` instants supplied by the caller in place of
`datetime.utcnow()`.  `result` holds the value returned by the task's
function (`none` = the Python attribute still holding its initial
`None`); `error` holds `str(e)` of the caught exception. -/

structure Task where
  task_id : String
  priority : Int
  status : String
  result : Option String
  error : Option String
  created_at : Nat
  started_at : Option Nat
  completed_at : Option Nat
  attempts : Nat
  max_attempts : Nat
deriving DecidableEq

/-- Mirror of `Task.__init__`: `status = 'pending'`, no result or error,
zero attempts, `max_attempts = 3`. -/
def Task.mk_init (task_id : String) (priority : Int) (now : Nat) : Task :=
  { task_id := task_id
    priority := priority
    status := "pending"
    result := none
    error := none
    created_at := now
    started_at := some now
    completed_at := none
    attempts := 0
    max_attempts := 3 }

instance : Inhabited Task := ⟨Task.mk_init "" 0 0⟩

/-- Mirror of `Task.execute` (lines 40-58): increment `attempts`, set
`started_at` and `status = 'running'`; on a normal return store the
result and set `status = 'completed'`; on an exception store `str(e)` in
`error` and set `status = 'failed'`.  The Boolean is the Python return
value.  Note the success branch does NOT clear `error`. -/
def Task.execute (now : Nat) (outcome : Except String String) (t : Task) : Task × Bool :=
  let t1 := { t with attempts := t.attempts + 1, started_at := some now, status := "running" }
  match outcome with
  | Except.ok v =>
      ({ t1 with result := some v, status := "completed", completed_at := some now }, true)
  | Except.error e =>
      ({ t1 with error := some e, status := "failed", completed_at := some now }, false)

/-- Mirror of `Task.should_retry` (lines 60-62). -/
def Task.should_retry (t : Task) : Bool :=
  t.status == "failed" && t.attempts < t.max_attempts

/-- Mirror of `Task.__lt__` (lines 64-66): `self.priority > other.priority`. -/
def Task.lt (a b : Task) : Bool :=
  a.priority > b.priority

/-! ## CPython `heapq` on which `queue.PriorityQueue` is built

`WorkerQueue.enqueue` pushes the tuple `(task.priority, task)` into a
`queue.PriorityQueue`, which is a min-heap maintained by `heapq.heappush`
and `heapq.heappop` over a Python list.  The sift loops are embedded with
an explicit iteration bound: `_siftdown` walks a position strictly down
towards the root, so `pos` bounds its iterations; `_siftup` walks a
position down the tree, so the heap size bounds its iterations.  The
bound is always sufficient, and exhausting it performs exactly the
loop-exit action. -/

/-- Loop of `heapq._siftdown(heap, startpos, pos)` with `newitem` the
element initially at `pos`. -/
def siftdownGo {α : Type} [Inhabited α] (lt : α → α → Bool) (newitem : α) (startpos : Nat) :
    Nat → Array α → Nat → Array α
  | 0, heap, pos => heap.set! pos newitem
  | fuel + 1, heap, pos =>
    if startpos < pos then
      let parentpos := (pos - 1) / 2
      let parent := heap.get! parentpos
      if lt newitem parent then
        siftdownGo lt newitem startpos fuel (heap.set! pos parent) parentpos
      else heap.set! pos newitem
    else heap.set! pos newitem

/-- Exit action of `heapq._siftup`: write `newitem` at `pos`, then
`_siftdown(heap, startpos, pos)`. -/
def siftupExit {α : Type} [Inhabited α] (lt : α → α → Bool) (heap : Array α)
    (newitem : α) (startpos pos : Nat) : Array α :=
  siftdownGo lt newitem startpos pos (heap.set! pos newitem) pos

/-- Loop of `heapq._siftup(heap, pos)`: follow the smaller child down the
tree, then sift the moved element back down. -/
def siftupGo {α : Type} [Inhabited α] (lt : α → α → Bool) (endpos startpos : Nat) (newitem : α) :
    Nat → Array α → Nat → Array α
  | 0, heap, pos => siftupExit lt heap newitem startpos pos
  | fuel + 1, heap, pos =>
    let childpos := 2 * pos + 1
    if childpos < endpos then
      let rightpos := childpos + 1
      let childpos :=
        if rightpos < endpos && !(lt (heap.get! childpos) (heap.get! rightpos)) then rightpos
        else childpos
      siftupGo lt endpos startpos newitem fuel (heap.set! pos (heap.get! childpos)) childpos
    else siftupExit lt heap newitem startpos pos

/-- Mirror of `heapq.heappush`: append, then `_siftdown(heap, 0, len-1)`. -/
def heappush {α : Type} [Inhabited α] (lt : α → α → Bool) (heap : Array α) (item : α) : Array α :=
  let h := heap.push item
  siftdownGo lt item 0 (h.size - 1) h (h.size - 1)

/-- Mirror of `heapq.heappop`: pop the last element; if the heap is still
non-empty, return the root, move the last element to the root and
`_siftup(heap, 0)`.  An empty heap returns `none` (Python raises). -/
def heappop {α : Type} [Inhabited α] (lt : α → α → Bool) (heap : Array α) :
    Option (α × Array α) :=
  if heap.size = 0 then none
  else
    let lastelt := heap.get! (heap.size - 1)
    let h := heap.pop
    if h.size = 0 then some (lastelt, h)
    else
      let returnitem := h.get! 0
      let h2 := h.set! 0 lastelt
      some (returnitem, siftupGo lt h2.size 0 lastelt h2.size h2 0)

/-- The items stored in the worker pool's `PriorityQueue`: the tuple
`(task.priority, task)` pushed by `WorkerQueue.enqueue` (line 145). -/
abbrev QItem := Int × Task

/-- Python comparison of the `(priority, task)` tuples: compare the
integer priorities first, and only on equality fall back to
`Task.__lt__`. -/
def tupLt (a b : QItem) : Bool :=
  if a.1 == b.1 then Task.lt a.2 b.2 else a.1 < b.1

/-! ## WorkerQueue state (`WorkerQueue.__init__`, lines 72-79) -/

structure WorkerQueue where
  queue : Array QItem
  workers : List String
  num_workers : Nat
  running : Bool
  tasks : List (String × Task)
  completed_tasks : List Task
  max_completed : Nat
deriving DecidableEq

def WorkerQueue.init (num_workers : Nat) : WorkerQueue :=
  { queue := #[]
    workers := []
    num_workers := num_workers
    running := false
    tasks := []
    completed_tasks := []
    max_completed := 1000 }

/-- Python dict upsert `d[k] = v` on an insertion-ordered association
list: overwrite in place if the key exists, else append. -/
def dictInsert {α : Type} (l : List (String × α)) (k : String) (v : α) : List (String × α) :=
  if l.any (fun p => p.1 == k) then l.map (fun p => if p.1 == k then (k, v) else p)
  else l ++ [(k, v)]

/-- Python dict lookup returning `None` on a missing key. -/
def dictGet {α : Type} (l : List (String × α)) (k : String) : Option α :=
  (l.find? (fun p => p.1 == k)).map (fun p => p.2)

/-- Python list slice `l[-k:]` (for `k = 0` Python returns the whole
list). -/
def sliceLast {α : Type} (l : List α) (k : Nat) : List α :=
  if k = 0 then l else l.drop (l.length - k)

/-- Mirror of `WorkerQueue.enqueue` (lines 142-146): record the task in
the active dict, push `(task.priority, task)`, return the task id. -/
def WorkerQueue.enqueue (q : WorkerQueue) (t : Task) : WorkerQueue × String :=
  ({ q with tasks := dictInsert q.tasks t.task_id t,
            queue := heappush tupLt q.queue (t.priority, t) },
   t.task_id)

/-- Mirror of `WorkerQueue.start` (lines 81-91): set `running`, then
unconditionally spawn `num_workers` threads named `Worker-i` and append
them to `workers`.  There is no guard against a repeated call. -/
def WorkerQueue.start (q : WorkerQueue) : WorkerQueue :=
  let q1 := { q with running := true }
  { q1 with workers := q1.workers ++ (List.range q1.num_workers).map (fun i => "Worker-" ++ toString i) }

/-- Mirror of `WorkerQueue._complete_task` (lines 131-140): drop the task
from the active dict, append it to `completed_tasks`, trim to the last
`max_completed` entries. -/
def WorkerQueue.complete_task (q : WorkerQueue) (t : Task) : WorkerQueue :=
  let q1 := { q with tasks := q.tasks.filter (fun p => !(p.1 == t.task_id)) }
  let ct := q1.completed_tasks ++ [t]
  { q1 with completed_tasks := if ct.length > q1.max_completed then sliceLast ct q1.max_completed else ct }

/-- Mirror of `WorkerQueue.get_task_status` (lines 148-159): look the id
up in the active dict, then scan `completed_tasks` newest-first, else
`None`. -/
def WorkerQueue.get_task_status (q : WorkerQueue) (task_id : String) : Option Task :=
  match dictGet q.tasks task_id with
  | some t => some t
  | none => q.completed_tasks.reverse.find? (fun t => t.task_id == task_id)

/-- The Python value produced by `BackgroundTaskManager.get_task_result`:
either a returned value (`none` is Python `None`) or a raised
exception's message. -/
inductive PyResult where
  | value (v : Option String)
  | raised (msg : String)
deriving DecidableEq

/-- Python `str` of the stored error, as interpolated into the exception
message (`None` when the attribute was never assigned). -/
def errStr : Option String → String
  | none => "None"
  | some e => e

/-- Mirror of `BackgroundTaskManager.get_task_result` (lines 216-228):
`None` for an unknown id, the stored result when completed, a raised
`Exception` carrying the stored error when failed, and `None` while
still pending or running. -/
def get_task_result (q : WorkerQueue) (task_id : String) : PyResult :=
  match q.get_task_status task_id with
  | none => PyResult.value none
  | some t =>
    if t.status == "completed" then PyResult.value t.result
    else if t.status == "failed" then PyResult.raised ("Task failed: " ++ errStr t.error)
    else PyResult.value none

/-! ## One worker-loop iteration (`WorkerQueue._worker`, lines 104-129)

`behav k` is the outcome of the `k+1`-st invocation of the task's
function (the external world may answer differently on each attempt);
`now` is the logical instant of the attempt. -/

structure StepResult where
  task : Task
  requeued : Bool
  delay : Nat
deriving DecidableEq

/-- The body of `_worker` applied to one dequeued task: execute it; on a
failure with `should_retry`, sleep `2 ** task.attempts` seconds and
re-enqueue, otherwise complete.  `delay` records the backoff sleep. -/
def workerStep (behav : Nat → Except String String) (now : Nat) (t : Task) : StepResult :=
  let r := Task.execute now (behav t.attempts) t
  if !r.2 && r.1.should_retry then
    { task := r.1, requeued := true, delay := 2 ^ r.1.attempts }
  else
    { task := r.1, requeued := false, delay := 0 }

/-- One full `_worker` iteration at queue level: pop `(priority, task)`,
run `workerStep`; re-enqueue pushes `(task.priority, task)` back,
otherwise `_complete_task` runs. -/
def WorkerQueue.worker_iteration (behav : Nat → Except String String) (now : Nat)
    (q : WorkerQueue) : Option (WorkerQueue × StepResult) :=
  match heappop tupLt q.queue with
  | none => none
  | some (item, rest) =>
    let s := workerStep behav now item.2
    if s.requeued then
      some ({ q with queue := heappush tupLt rest (s.task.priority, s.task) }, s)
    else
      some (WorkerQueue.complete_task { q with queue := rest } s.task, s)

/-- Repeatedly process one task through the worker loop until it is not
re-enqueued, with a fuel bound; returns the final task and the number of
executions performed. -/
def workerRun (behav : Nat → Except String String) (now : Nat) :
    Nat → Task → Task × Nat
  | 0, t => (t, 0)
  | fuel + 1, t =>
    let s := workerStep behav now t
    if s.requeued then
      let w := workerRun behav now fuel s.task
      (w.1, w.2 + 1)
    else (s.task, 1)

/-- The two places a task owned by the worker loop can sit: back in the
queue awaiting execution, or moved to the completed/failed history. -/
inductive TaskPos where
  | queued (t : Task)
  | terminal (t : Task)

def TaskPos.task : TaskPos → Task
  | TaskPos.queued t => t
  | TaskPos.terminal t => t

/-- States of one task reachable under the worker loop: freshly
submitted, re-enqueued after a retried failure, or moved to history. -/
inductive Reaches (behav : Nat → Except String String) : TaskPos → Prop where
  | init (id : String) (pr : Int) (now : Nat) :
      Reaches behav (TaskPos.queued (Task.mk_init id pr now))
  | requeue (t : Task) (now : Nat) :
      Reaches behav (TaskPos.queued t) →
      (workerStep behav now t).requeued = true →
      Reaches behav (TaskPos.queued (workerStep behav now t).task)
  | finish (t : Task) (now : Nat) :
      Reaches behav (TaskPos.queued t) →
      (workerStep behav now t).requeued = false →
      Reaches behav (TaskPos.terminal (workerStep behav now t).task)

/-- A function body that raises on every invocation. -/
def alwaysFail : Nat → Except String String := fun _ => Except.error "boom"

/-- A function body that raises on the first invocation and returns
normally on every later one. -/
def failThenOk : Nat → Except String String :=
  fun k => if k == 0 then Except.error "boom" else Except.ok "v"

/-- Python truthiness of an optional string (`if x:`): `None` and the
empty string are falsy. -/
def truthy : Option String → Bool
  | none => false
  | some s => !(s == "")

/-! ## Webhook deliveries (`WebhookDelivery`, webhook_system.py lines 31-139)

`payload` is the caller's JSON-serializable body, kept opaque as its
serialized form. -/

structure WebhookDelivery where
  webhook_id : String
  url : String
  event : String
  payload : String
  secret : Option String
  attempts : Nat
  max_attempts : Nat
  last_attempt : Option Nat
  status : String
  response_code : Option Nat
  response_body : Option String
  created_at : Nat
deriving DecidableEq

/-- Mirror of `WebhookDelivery.__init__` (lines 34-46). -/
def WebhookDelivery.mk_init (webhook_id url event payload : String)
    (secret : Option String) (now : Nat) : WebhookDelivery :=
  { webhook_id := webhook_id
    url := url
    event := event
    payload := payload
    secret := secret
    attempts := 0
    max_attempts := 5
    last_attempt := none
    status := "pending"
    response_code := none
    response_body := none
    created_at := now }

/-- Mirror of `WebhookDelivery.generate_signature` (lines 48-59):
`None` without a (truthy) secret, else the hex HMAC-SHA256 digest of the
payload string keyed by the secret.  `hmacHex key msg` stands for
`hmac.new(key, msg, hashlib.sha256).hexdigest()`, an external library
call. -/
def WebhookDelivery.generate_signature (hmacHex : String → String → String)
    (payload_str : String) (d : WebhookDelivery) : Option String :=
  if !(truthy d.secret) then none
  else some (hmacHex (d.secret.getD "") payload_str)

/-- Mirror of `WebhookDelivery.should_retry` (lines 123-131). -/
def WebhookDelivery.should_retry (d : WebhookDelivery) : Bool :=
  if d.status == "delivered" then false
  else if d.attempts ≥ d.max_attempts then false
  else true

/-- Mirror of `WebhookDelivery.get_retry_delay` (lines 133-139):
`min(2 ** (attempts - 1), 60)`, i.e. 1, 2, 4, 8, 16 seconds for
attempts 1..5. -/
def WebhookDelivery.get_retry_delay (d : WebhookDelivery) : Nat :=
  if d.attempts = 0 then 0
  else min (2 ^ (d.attempts - 1)) 60

/-- The observable outcome of the `requests.post` call: an HTTP response,
or one of the exceptions `send` catches. -/
inductive HttpOutcome where
  | response (code : Nat) (text : String)
  | timeout
  | connectionError
  | otherError (msg : String)
deriving DecidableEq

/-- The outbound HTTP POST built by `send`. -/
structure HttpRequest where
  url : String
  body : String
  headers : List (String × String)
deriving DecidableEq

structure SendResult where
  delivery : WebhookDelivery
  request : HttpRequest
  success : Bool
deriving DecidableEq

/-- First-match header lookup in a request's header list. -/
def getHeader (hs : List (String × String)) (name : String) : Option String :=
  (hs.find? (fun p => p.1 == name)).map (fun p => p.2)

/-- Mirror of `WebhookDelivery.send` (lines 61-121).  `dumpsEnv ev now
wid data` stands for `json.dumps` of the envelope
`'event': ev, 'timestamp': now, 'webhook_id': wid, 'data': data` (the
serializer is an external library); `now` is the logical instant of
`datetime.utcnow()`; `outcome` is the HTTP stack's answer.  The result
carries the mutated delivery, the request that was posted, and the
Python return value. -/
def WebhookDelivery.send (hmacHex : String → String → String)
    (dumpsEnv : String → Nat → String → String → String)
    (now : Nat) (outcome : HttpOutcome) (d : WebhookDelivery) : SendResult :=
  let d1 := { d with attempts := d.attempts + 1, last_attempt := some now }
  let payload_str := dumpsEnv d1.event now d1.webhook_id d1.payload
  let headers :=
    [("Content-Type", "application/json"),
     ("User-Agent", "PassportApp-Webhook/1.0"),
     ("X-Webhook-Event", d1.event),
     ("X-Webhook-ID", d1.webhook_id),
     ("X-Webhook-Attempt", toString d1.attempts)]
  let headers :=
    if truthy d1.secret then
      headers ++ [("X-Webhook-Signature",
        "sha256=" ++ (d1.generate_signature hmacHex payload_str).getD "None")]
    else headers
  let req : HttpRequest := { url := d1.url, body := payload_str, headers := headers }
  match outcome with
  | HttpOutcome.response code text =>
      let d2 := { d1 with response_code := some code, response_body := some (text.take 1000) }
      if 200 ≤ code ∧ code < 300 then
        { delivery := { d2 with status := "delivered" }, request := req, success := true }
      else
        { delivery := { d2 with status := "failed" }, request := req, success := false }
  | HttpOutcome.timeout =>
      { delivery := { d1 with status := "timeout", response_body := some "Request timeout" },
        request := req, success := false }
  | HttpOutcome.connectionError =>
      { delivery := { d1 with status := "connection_error", response_body := some "Connection error" },
        request := req, success := false }
  | HttpOutcome.otherError msg =>
      { delivery := { d1 with status := "error", response_body := some msg },
        request := req, success := false }

/-! ## Subscriptions and the manager (`WebhookManager`, lines 200-325) -/

structure Subscription where
  url : String
  events : List String
  secret : Option String
  created_at : Nat
  active : Bool
deriving DecidableEq

/-- Manager state: the subscription dict (insertion-ordered), the FIFO
delivery queue of the `WebhookQueue`, and the bounded history. -/
structure WebhookManager where
  subscriptions : List (String × Subscription)
  delivery_queue : List WebhookDelivery
  delivery_history : List WebhookDelivery
  max_history : Nat
deriving DecidableEq

/-- Mirror of `WebhookManager.__init__` (lines 203-207). -/
def WebhookManager.init : WebhookManager :=
  { subscriptions := [], delivery_queue := [], delivery_history := [], max_history := 1000 }

/-- Mirror of `WebhookManager.subscribe` (lines 217-225). -/
def WebhookManager.subscribe (m : WebhookManager) (webhook_id url : String)
    (events : List String) (secret : Option String) (now : Nat) : WebhookManager :=
  { m with subscriptions := dictInsert m.subscriptions webhook_id
            { url := url, events := events, secret := secret, created_at := now, active := true } }

/-- Mirror of `WebhookManager.unsubscribe` (lines 227-232). -/
def WebhookManager.unsubscribe (m : WebhookManager) (webhook_id : String) :
    WebhookManager × Bool :=
  if m.subscriptions.any (fun p => p.1 == webhook_id) then
    ({ m with subscriptions := m.subscriptions.map
                (fun p => if p.1 == webhook_id then (p.1, { p.2 with active := false }) else p) },
     true)
  else (m, false)

/-- Mirror of `WebhookManager._add_to_history` (lines 259-265). -/
def WebhookManager.add_to_history (m : WebhookManager) (d : WebhookDelivery) : WebhookManager :=
  let h := m.delivery_history ++ [d]
  if h.length > m.max_history then { m with delivery_history := sliceLast h m.max_history }
  else { m with delivery_history := h }

/-- The filter applied by `trigger_event` to each subscription entry:
skip inactive, skip when the event is not in its list. -/
def matchSub (event : String) (p : String × Subscription) : Bool :=
  p.2.active && p.2.events.contains event

/-- A single step of `trigger_event`'s loop over the subscription dict
(the loop body of lines 237-257): skip an inactive subscription, skip a
non-matching one, otherwise build the delivery, enqueue it and record it
in the history. -/
def triggerStep (now : Nat) (event payload : String) (st : WebhookManager)
    (p : String × Subscription) : WebhookManager :=
  if !p.2.active then st
  else if !(p.2.events.contains event) then st
  else
    let d := WebhookDelivery.mk_init p.1 p.2.url event payload p.2.secret now
    WebhookManager.add_to_history { st with delivery_queue := st.delivery_queue ++ [d] } d

/-- Mirror of `WebhookManager.trigger_event` (lines 234-257): run the
loop body over the subscription dict in insertion order. -/
def WebhookManager.trigger_event (m : WebhookManager) (now : Nat)
    (event : String) (payload : String) : WebhookManager :=
  m.subscriptions.foldl (triggerStep now event payload) m

/-- Stable insertion of a delivery into a list sorted by `created_at`
descending: the element goes after every element with a strictly larger
key and before the first with an equal or smaller key. -/
def insertByDesc (x : WebhookDelivery) : List WebhookDelivery → List WebhookDelivery
  | [] => [x]
  | y :: ys => if y.created_at > x.created_at then y :: insertByDesc x ys else x :: y :: ys

/-- `list.sort(key=lambda d: d.created_at, reverse=True)`: the stable
sort by `created_at` descending that Python performs in place. -/
def sortDesc (l : List WebhookDelivery) : List WebhookDelivery :=
  l.foldr insertByDesc []

/-- Mirror of `WebhookManager.get_recent_deliveries` (lines 315-325).
`deliveries` starts as an alias of `self.delivery_history`; a truthy
`webhook_id` rebinds it to a fresh filtered list, so the in-place
`deliveries.sort(...)` then only touches the copy — but with no filter it
reorders the stored history itself.  The returned pair is (result,
manager state after the call). -/
def WebhookManager.get_recent_deliveries (m : WebhookManager)
    (webhook_id : Option String) (limit : Nat) :
    List WebhookDelivery × WebhookManager :=
  if truthy webhook_id then
    let ds := m.delivery_history.filter (fun d => d.webhook_id == webhook_id.getD "")
    ((sortDesc ds).take limit, m)
  else
    let ds := sortDesc m.delivery_history
    (ds.take limit, { m with delivery_history := ds })

/-! ## Concrete states used as test inputs -/

/-- A worker queue holding one just-submitted NORMAL-priority task. -/
def qC7 : WorkerQueue := ((WorkerQueue.init 4).enqueue (Task.mk_init "r" 1 0)).1

/-- A worker queue whose active dict holds one pending task `p`. -/
def qC9 : WorkerQueue := { WorkerQueue.init 4 with tasks := [("p", Task.mk_init "p" 1 0)] }

def dH1 : WebhookDelivery := WebhookDelivery.mk_init "w1" "u1" "e" "p" none 1

def dH2 : WebhookDelivery := WebhookDelivery.mk_init "w2" "u2" "e" "p" none 2

/-- A manager whose history holds `dH1` (older) then `dH2` (newer), in
insertion order as `_add_to_history` produces it. -/
def mC10 : WebhookManager := { WebhookManager.init with delivery_history := [dH1, dH2] }

/-! ## Simple facts about `execute` and `workerStep` -/

theorem execute_fst_attempts (now : Nat) (o : Except String String) (t : Task) :
    (Task.execute now o t).1.attempts = t.attempts + 1 := by
  cases o <;> rfl

theorem execute_fst_max (now : Nat) (o : Except String String) (t : Task) :
    (Task.execute now o t).1.max_attempts = t.max_attempts := by
  cases o <;> rfl

theorem execute_fst_priority (now : Nat) (o : Except String String) (t : Task) :
    (Task.execute now o t).1.priority = t.priority := by
  cases o <;> rfl

theorem workerStep_task (behav : Nat → Except String String) (now : Nat) (t : Task) :
    (workerStep behav now t).task = (Task.execute now (behav t.attempts) t).1 := by
  simp only [workerStep]
  split <;> rfl

theorem workerStep_requeued_retry (behav : Nat → Except String String) (now : Nat) (t : Task)
    (h : (workerStep behav now t).requeued = true) :
    ((workerStep behav now t).task).should_retry = true := by
  rw [workerStep_task]
  simp only [workerStep] at h
  split at h
  case isTrue hc =>
    exact (Bool.and_eq_true _ _ |>.mp hc).2
  case isFalse hc => simp at h

/-- The task record produced by a failed `execute` at instant `now`. -/
def failTask (now : Nat) (e : String) (t : Task) : Task :=
  { t with attempts := t.attempts + 1, started_at := some now, status := "failed",
           error := some e, completed_at := some now }

/-- The task record produced by a successful `execute` at instant `now`. -/
def okTask (now : Nat) (v : String) (t : Task) : Task :=
  { t with attempts := t.attempts + 1, started_at := some now, status := "completed",
           result := some v, completed_at := some now }

theorem execute_ok_eq (now : Nat) (v : String) (t : Task) :
    Task.execute now (Except.ok v) t = (okTask now v t, true) := rfl

theorem execute_err_eq (now : Nat) (e : String) (t : Task) :
    Task.execute now (Except.error e) t = (failTask now e t, false) := rfl

theorem workerStep_ok (behav : Nat → Except String String) (now : Nat) (t : Task) (v : String)
    (hb : behav t.attempts = Except.ok v) :
    workerStep behav now t = { task := okTask now v t, requeued := false, delay := 0 } := by
  simp [workerStep, hb, execute_ok_eq]

theorem workerStep_err (behav : Nat → Except String String) (now : Nat) (t : Task) (e : String)
    (hb : behav t.attempts = Except.error e) :
    workerStep behav now t =
      if t.attempts + 1 < t.max_attempts then
        { task := failTask now e t, requeued := true, delay := 2 ^ (t.attempts + 1) }
      else
        { task := failTask now e t, requeued := false, delay := 0 } := by
  simp only [workerStep, hb, execute_err_eq]
  simp [Task.should_retry, failTask]

/-- Invariant of queued (executable) task states: the retry guard keeps
every task that re-enters the queue strictly below its attempt budget,
and a queued task has never yet produced a result. -/
theorem reaches_queued_inv (behav : Nat → Except String String) :
    ∀ s, Reaches behav s → ∀ t, s = TaskPos.queued t →
      t.attempts < t.max_attempts ∧ t.result = none := by
  intro s h
  induction h with
  | init id pr now =>
      intro t ht
      cases ht
      exact ⟨by simp [Task.mk_init], rfl⟩
  | requeue t0 now hr hreq ih =>
      intro t ht
      cases ht
      have hretry := workerStep_requeued_retry behav now t0 hreq
      have hprev := ih t0 rfl
      constructor
      · simp only [Task.should_retry, Bool.and_eq_true, beq_iff_eq, decide_eq_true_eq] at hretry
        exact hretry.2
      · cases hb : behav t0.attempts with
        | ok v =>
            rw [workerStep_task, hb, execute_ok_eq] at hretry
            simp [Task.should_retry, okTask] at hretry
        | error e =>
            rw [workerStep_task, hb, execute_err_eq]
            simpa [failTask] using hprev.2
  | finish t0 now hr hreq ih =>
      intro t ht
      cases ht

/-- In every reachable state, the attempt count never exceeds the
budget. -/
theorem reaches_le (behav : Nat → Except String String) (s : TaskPos) (h : Reaches behav s) :
    s.task.attempts ≤ s.task.max_attempts := by
  cases h with
  | init id pr now => simp [TaskPos.task, Task.mk_init]
  | requeue t0 now hr hreq =>
      have h1 := (reaches_queued_inv behav _ (Reaches.requeue t0 now hr hreq) _ rfl).1
      simp only [TaskPos.task]
      omega
  | finish t0 now hr hreq =>
      have h1 := (reaches_queued_inv behav _ hr _ rfl).1
      simp only [TaskPos.task]
      rw [workerStep_task, execute_fst_attempts, execute_fst_max]
      omega

theorem failTask_attempts (now : Nat) (e : String) (t : Task) :
    (failTask now e t).attempts = t.attempts + 1 := rfl

theorem failTask_max (now : Nat) (e : String) (t : Task) :
    (failTask now e t).max_attempts = t.max_attempts := rfl

theorem failTask_status (now : Nat) (e : String) (t : Task) :
    (failTask now e t).status = "failed" := rfl

theorem failTask_priority (now : Nat) (e : String) (t : Task) :
    (failTask now e t).priority = t.priority := rfl

theorem workerRun_succ_requeued (behav : Nat → Except String String) (now n : Nat) (t : Task)
    (h : (workerStep behav now t).requeued = true) :
    workerRun behav now (n + 1) t =
      ((workerRun behav now n (workerStep behav now t).task).1,
       (workerRun behav now n (workerStep behav now t).task).2 + 1) := by
  simp only [workerRun]
  rw [if_pos h]

theorem workerRun_succ_done (behav : Nat → Except String String) (now n : Nat) (t : Task)
    (h : (workerStep behav now t).requeued = false) :
    workerRun behav now (n + 1) t = ((workerStep behav now t).task, 1) := by
  simp only [workerRun]
  rw [if_neg (by simp [h])]

/-- Running the worker loop on a task whose function raises `e` on every
invocation performs exactly `max_attempts - attempts` further executions
and ends with status `failed` and the budget exhausted, for any
sufficient fuel. -/
theorem workerRun_fail (behav : Nat → Except String String) (e : String)
    (hfail : ∀ k, behav k = Except.error e) (now : Nat) :
    ∀ fuel (t : Task), t.attempts < t.max_attempts → t.max_attempts - t.attempts ≤ fuel →
      (workerRun behav now fuel t).2 = t.max_attempts - t.attempts ∧
      (workerRun behav now fuel t).1.status = "failed" ∧
      (workerRun behav now fuel t).1.attempts = t.max_attempts := by
  intro fuel
  induction fuel with
  | zero => intro t h1 h2; omega
  | succ n ih =>
      intro t h1 h2
      by_cases hc : t.attempts + 1 < t.max_attempts
      · have hstep : workerStep behav now t
            = { task := failTask now e t, requeued := true, delay := 2 ^ (t.attempts + 1) } := by
          rw [workerStep_err behav now t e (hfail t.attempts), if_pos hc]
        obtain ⟨h31, h32, h33⟩ := ih (failTask now e t)
          (by rw [failTask_attempts, failTask_max]; omega)
          (by rw [failTask_attempts, failTask_max]; omega)
        rw [workerRun_succ_requeued behav now n t (by rw [hstep])]
        simp only [hstep]
        simp only [failTask_attempts, failTask_max] at h31 h33
        exact ⟨by omega, h32, h33⟩
      · have hstep : workerStep behav now t
            = { task := failTask now e t, requeued := false, delay := 0 } := by
          rw [workerStep_err behav now t e (hfail t.attempts), if_neg hc]
        rw [workerRun_succ_done behav now n t (by rw [hstep])]
        simp only [hstep, failTask_status, failTask_attempts]
        exact ⟨by omega, trivial, by omega⟩


/-! ## Facts about the webhook manager -/

theorem add_to_history_queue (m : WebhookManager) (d : WebhookDelivery) :
    (m.add_to_history d).delivery_queue = m.delivery_queue := by
  simp only [WebhookManager.add_to_history]
  split <;> rfl

/-- The queue contents produced by folding the `trigger_event` loop body
over any subscription list: one delivery appended per active, matching
subscription, in order. -/
theorem triggerStep_fold_queue (now : Nat) (event payload : String) :
    ∀ (l : List (String × Subscription)) (st : WebhookManager),
      (l.foldl (triggerStep now event payload) st).delivery_queue
        = st.delivery_queue ++ (l.filter (matchSub event)).map
            (fun p => WebhookDelivery.mk_init p.1 p.2.url event payload p.2.secret now) := by
  intro l
  induction l with
  | nil => intro st; simp
  | cons p l ih =>
      intro st
      rw [List.foldl_cons, List.filter_cons]
      by_cases ha : p.2.active
      · by_cases he : p.2.events.contains event
        · have he2 : event ∈ p.2.events := by simpa using he
          have hm : matchSub event p = true := by simp [matchSub, ha, he2]
          rw [if_pos hm, ih]
          simp [triggerStep, ha, he2, add_to_history_queue]
        · have he2 : event ∉ p.2.events := by simpa using he
          have hm : matchSub event p = false := by simp [matchSub, he2]
          rw [if_neg (by simp [hm]), ih]
          simp [triggerStep, ha, he2]
      · have hm : matchSub event p = false := by simp [matchSub, ha]
        rw [if_neg (by simp [hm]), ih]
        simp [triggerStep, ha]

theorem mem_insertByDesc (x d : WebhookDelivery) (l : List WebhookDelivery) :
    d ∈ insertByDesc x l ↔ d = x ∨ d ∈ l := by
  induction l with
  | nil => simp [insertByDesc]
  | cons y ys ih =>
      simp only [insertByDesc]
      split
      · simp only [List.mem_cons, ih]
        tauto
      · simp only [List.mem_cons]

theorem mem_sortDesc (d : WebhookDelivery) (l : List WebhookDelivery) :
    d ∈ sortDesc l ↔ d ∈ l := by
  induction l with
  | nil => simp [sortDesc]
  | cons y ys ih =>
      rw [sortDesc, List.foldr_cons, mem_insertByDesc]
      rw [sortDesc] at ih
      rw [ih, List.mem_cons]

/-! ## Facts about `send` -/

theorem getHeader_base_none (ev wid att : String) :
    getHeader [("Content-Type", "application/json"),
      ("User-Agent", "PassportApp-Webhook/1.0"),
      ("X-Webhook-Event", ev),
      ("X-Webhook-ID", wid),
      ("X-Webhook-Attempt", att)] "X-Webhook-Signature" = none := by
  simp [getHeader]

theorem getHeader_base_sig (ev wid att v : String) :
    getHeader ([("Content-Type", "application/json"),
      ("User-Agent", "PassportApp-Webhook/1.0"),
      ("X-Webhook-Event", ev),
      ("X-Webhook-ID", wid),
      ("X-Webhook-Attempt", att)] ++ [("X-Webhook-Signature", v)])
      "X-Webhook-Signature" = some v := by
  simp [getHeader]

/-- The HTTP request `send` posts is the same for every outcome: the
serialized envelope as the body, the five fixed headers, and the
signature header exactly when the secret is truthy. -/
theorem send_request (hmacHex : String → String → String)
    (dumpsEnv : String → Nat → String → String → String)
    (now : Nat) (outcome : HttpOutcome) (d : WebhookDelivery) :
    (WebhookDelivery.send hmacHex dumpsEnv now outcome d).request
      = { url := d.url,
          body := dumpsEnv d.event now d.webhook_id d.payload,
          headers :=
            if truthy d.secret then
              [("Content-Type", "application/json"),
               ("User-Agent", "PassportApp-Webhook/1.0"),
               ("X-Webhook-Event", d.event),
               ("X-Webhook-ID", d.webhook_id),
               ("X-Webhook-Attempt", toString (d.attempts + 1))] ++
              [("X-Webhook-Signature",
                "sha256=" ++ (WebhookDelivery.generate_signature hmacHex
                  (dumpsEnv d.event now d.webhook_id d.payload)
                  { d with attempts := d.attempts + 1, last_attempt := some now }).getD "None")]
            else
              [("Content-Type", "application/json"),
               ("User-Agent", "PassportApp-Webhook/1.0"),
               ("X-Webhook-Event", d.event),
               ("X-Webhook-ID", d.webhook_id),
               ("X-Webhook-Attempt", toString (d.attempts + 1))] } := by
  cases outcome
  case response code text =>
    simp only [WebhookDelivery.send]
    split <;> rfl
  all_goals rfl

theorem generate_signature_some (hmacHex : String → String → String) (ps s : String)
    (d : WebhookDelivery) (hs : d.secret = some s) (hne : s ≠ "") :
    WebhookDelivery.generate_signature hmacHex ps d = some (hmacHex s ps) := by
  simp [WebhookDelivery.generate_signature, truthy, hs, hne]

/-! ## The claims -/

/-- C1: the spec says the queue dequeues the highest priority first
(CRITICAL before HIGH before NORMAL before LOW).  The code pushes raw
`(priority, task)` tuples into a min-heap, so the LOWEST priority value
pops first: with CRITICAL task `A` and LOW task `B` both waiting,
dequeue returns `B`.  (`Task.__lt__` inverts the comparison precisely so
that higher priority would pop first, but the integer component of the
tuple compares before the task ever does, defeating it.) -/
theorem C1_priority_inversion :
    (heappop tupLt
        (((WorkerQueue.init 4).enqueue (Task.mk_init "A" TaskPriority.CRITICAL 0)).1.enqueue
          (Task.mk_init "B" TaskPriority.LOW 1)).1.queue).map
      (fun r => (r.1.1, r.1.2.task_id))
    = some (TaskPriority.LOW, "B") := by decide

/-- C2: a task whose function raises on every invocation is executed
exactly `max_attempts` (= 3) times by the worker loop and ends with
status `failed`; in every reachable state `attempts ≤ max_attempts`, and
no task whose budget is exhausted is ever back in the queue (so a
terminal task is never re-enqueued or executed again). -/
theorem C2_retry_bound (behav : Nat → Except String String) (e : String)
    (hfail : ∀ k, behav k = Except.error e) (id : String) (pr : Int) (now : Nat) :
    ((workerRun behav now 3 (Task.mk_init id pr now)).2 = 3 ∧
     (workerRun behav now 3 (Task.mk_init id pr now)).1.status = "failed" ∧
     (workerRun behav now 3 (Task.mk_init id pr now)).1.attempts = 3) ∧
    (∀ s, Reaches behav s → s.task.attempts ≤ s.task.max_attempts) ∧
    (∀ t, Reaches behav (TaskPos.queued t) → t.attempts < t.max_attempts) := by
  refine ⟨?_, fun s h => reaches_le behav s h, fun t h => (reaches_queued_inv behav _ h _ rfl).1⟩
  have h3 := workerRun_fail behav e hfail now 3 (Task.mk_init id pr now)
    (by simp [Task.mk_init]) (by simp [Task.mk_init])
  simpa [Task.mk_init] using h3

/-- C2 witness: the concrete always-failing task runs 3 times and fails. -/
theorem C2_retry_bound_witness :
    (workerRun alwaysFail 0 3 (Task.mk_init "a" 1 0)).2 = 3 ∧
    (workerRun alwaysFail 0 3 (Task.mk_init "a" 1 0)).1.status = "failed" := by
  have h := C2_retry_bound alwaysFail "boom" (fun k => rfl) "a" 1 0
  exact ⟨h.1.1, h.1.2.1⟩

/-- C3 counterexample: a task that raises on attempt 1 and succeeds on
attempt 2 ends `completed` with `result` set AND `error` still holding
the message of the failed attempt — `execute` never clears `error` on
success, so result and error are both present, refuting the claimed
mutual exclusion. -/
theorem C3_counterexample :
    (workerRun failThenOk 0 3 (Task.mk_init "a" 1 0)).1.status = "completed" ∧
    (workerRun failThenOk 0 3 (Task.mk_init "a" 1 0)).1.result = some "v" ∧
    (workerRun failThenOk 0 3 (Task.mk_init "a" 1 0)).1.error = some "boom" := by decide

/-- C3 (amended): in every reachable state, status `failed` implies the
error is set and the result unset, and status `completed` implies the
result is set; but `error` may remain set from an earlier failed attempt
of a task that later completed (see the counterexample). -/
theorem C3_terminal_fields (behav : Nat → Except String String) (s : TaskPos)
    (h : Reaches behav s) :
    (s.task.status = "failed" → s.task.error ≠ none ∧ s.task.result = none) ∧
    (s.task.status = "completed" → s.task.result ≠ none) := by
  cases h with
  | init id pr now =>
      constructor <;> intro hst <;> simp [TaskPos.task, Task.mk_init] at hst
  | requeue t0 now hr hreq =>
      have hres := (reaches_queued_inv behav _ hr _ rfl).2
      cases hb : behav t0.attempts with
      | ok v =>
          simp only [TaskPos.task]
          rw [workerStep_task, hb, execute_ok_eq]
          constructor
          · intro hst; simp [okTask] at hst
          · intro hst; simp [okTask]
      | error e =>
          simp only [TaskPos.task]
          rw [workerStep_task, hb, execute_err_eq]
          constructor
          · intro hst; exact ⟨by simp [failTask], by simp [failTask, hres]⟩
          · intro hst; simp [failTask] at hst
  | finish t0 now hr hreq =>
      have hres := (reaches_queued_inv behav _ hr _ rfl).2
      cases hb : behav t0.attempts with
      | ok v =>
          simp only [TaskPos.task]
          rw [workerStep_task, hb, execute_ok_eq]
          constructor
          · intro hst; simp [okTask] at hst
          · intro hst; simp [okTask]
      | error e =>
          simp only [TaskPos.task]
          rw [workerStep_task, hb, execute_err_eq]
          constructor
          · intro hst; exact ⟨by simp [failTask], by simp [failTask, hres]⟩
          · intro hst; simp [failTask] at hst

/-- C3 witness: after one failed attempt the reachable requeued state
has its error set. -/
theorem C3_terminal_fields_witness :
    (workerStep alwaysFail 0 (Task.mk_init "w3" 1 0)).task.error ≠ none := by
  have h := C3_terminal_fields alwaysFail
      (TaskPos.queued (workerStep alwaysFail 0 (Task.mk_init "w3" 1 0)).task)
      (Reaches.requeue (Task.mk_init "w3" 1 0) 0 (Reaches.init "w3" 1 0) (by decide))
  exact (h.1 (by decide)).1

/-- C4 counterexample: a webhook delivery that has made 1 attempt waits
`get_retry_delay = min(2^0, 60) = 1` second, not the claimed
`min(2^1, 60) = 2`. -/
theorem C4_counterexample :
    WebhookDelivery.get_retry_delay
        { WebhookDelivery.mk_init "w" "u" "e" "p" none 0 with attempts := 1 } = 1 ∧
    (1 : Nat) ≠ min (2 ^ 1) 60 := by decide

/-- C4 (amended): the delay before the retry that follows attempt `k` is
exactly `2^k` seconds (uncapped) in the generic worker pool, and exactly
`min(2^(k-1), 60)` seconds for a webhook delivery job. -/
theorem C4_backoff :
    (∀ (behav : Nat → Except String String) (now : Nat) (t : Task) (k : Nat),
        (workerStep behav now t).requeued = true →
        (workerStep behav now t).task.attempts = k →
        (workerStep behav now t).delay = 2 ^ k) ∧
    (∀ (d : WebhookDelivery) (k : Nat), d.attempts = k → 1 ≤ k →
        d.get_retry_delay = min (2 ^ (k - 1)) 60) := by
  constructor
  · intro behav now t k hreq hk
    simp only [workerStep] at hreq hk ⊢
    split at hreq
    case isTrue hc =>
      rw [if_pos hc] at hk ⊢
      dsimp only at hk ⊢
      rw [hk]
    case isFalse hc => simp at hreq
  · intro d k hk h1
    subst hk
    rw [WebhookDelivery.get_retry_delay, if_neg (by omega)]

/-- C4 witness: the generic pool sleeps 2 seconds after attempt 1; a
delivery that has made 2 attempts waits `min(2^1, 60) = 2` seconds. -/
theorem C4_backoff_witness :
    (workerStep alwaysFail 0 (Task.mk_init "r" 1 0)).delay = 2 ^ 1 ∧
    WebhookDelivery.get_retry_delay
        { WebhookDelivery.mk_init "w" "u" "e" "p" none 0 with attempts := 2 }
      = min (2 ^ (2 - 1)) 60 := by
  constructor
  · exact C4_backoff.1 alwaysFail 0 (Task.mk_init "r" 1 0) 1 (by decide) (by decide)
  · exact C4_backoff.2 _ 2 rfl (by decide)

/-- C5: `trigger_event` appends to the delivery queue exactly one
delivery per subscription that is active and subscribed to the event, in
registry order and built from that subscription's url and secret, and
none for inactive or non-matching subscriptions; in particular the
number of enqueued deliveries is the count of active matching
subscriptions. -/
theorem C5_fanout (m : WebhookManager) (now : Nat) (event payload : String) :
    (m.trigger_event now event payload).delivery_queue
      = m.delivery_queue ++ (m.subscriptions.filter (matchSub event)).map
          (fun p => WebhookDelivery.mk_init p.1 p.2.url event payload p.2.secret now) ∧
    ((m.trigger_event now event payload).delivery_queue).length
      = m.delivery_queue.length + (m.subscriptions.countP (matchSub event)) := by
  have h := triggerStep_fold_queue now event payload m.subscriptions m
  rw [WebhookManager.trigger_event]
  refine ⟨h, ?_⟩
  rw [h]
  simp [List.countP_eq_length_filter]

/-- C6: with a configured (truthy) secret the posted request carries
`X-Webhook-Signature: sha256=<hmacHex secret body>` computed over the
exact string sent as the request body; with no truthy secret the header
is absent; `send` returns success exactly for a 2xx response code, and
on any failing outcome a delivery still under its attempt budget remains
retryable. -/
theorem C6_signature (hmacHex : String → String → String)
    (dumpsEnv : String → Nat → String → String → String)
    (now : Nat) (outcome : HttpOutcome) (d : WebhookDelivery) :
    (∀ s, d.secret = some s → s ≠ "" →
      getHeader (WebhookDelivery.send hmacHex dumpsEnv now outcome d).request.headers
          "X-Webhook-Signature"
        = some ("sha256=" ++
            hmacHex s (WebhookDelivery.send hmacHex dumpsEnv now outcome d).request.body)) ∧
    (truthy d.secret = false →
      getHeader (WebhookDelivery.send hmacHex dumpsEnv now outcome d).request.headers
          "X-Webhook-Signature" = none) ∧
    ((WebhookDelivery.send hmacHex dumpsEnv now outcome d).success = true ↔
      ∃ code text, outcome = HttpOutcome.response code text ∧ 200 ≤ code ∧ code < 300) ∧
    ((WebhookDelivery.send hmacHex dumpsEnv now outcome d).success = false →
      (WebhookDelivery.send hmacHex dumpsEnv now outcome d).delivery.attempts
          < (WebhookDelivery.send hmacHex dumpsEnv now outcome d).delivery.max_attempts →
      (WebhookDelivery.send hmacHex dumpsEnv now outcome d).delivery.should_retry = true) := by
  refine ⟨?_, ?_, ?_, ?_⟩
  · intro s hs hne
    have ht : truthy d.secret = true := by simp [truthy, hs, hne]
    rw [send_request hmacHex dumpsEnv now outcome d]
    rw [if_pos ht]
    rw [generate_signature_some hmacHex _ s _ (by simp [hs]) hne]
    exact getHeader_base_sig d.event d.webhook_id (toString (d.attempts + 1)) _
  · intro ht
    rw [send_request hmacHex dumpsEnv now outcome d]
    rw [if_neg (by simp [ht])]
    exact getHeader_base_none d.event d.webhook_id (toString (d.attempts + 1))
  · cases outcome <;> simp [WebhookDelivery.send]
    case response code text =>
      by_cases hc : 200 ≤ code ∧ code < 300
      · rw [if_pos hc]; simp [hc]
      · rw [if_neg hc]; simp; omega
  · intro hfail hlt
    cases outcome <;>
      simp [WebhookDelivery.send, WebhookDelivery.should_retry] at hfail hlt ⊢ <;>
      try omega
    case response code text =>
      by_cases hc : 200 ≤ code ∧ code < 300
      · rw [if_pos hc] at hfail
        simp at hfail
      · rw [if_neg hc] at hlt ⊢
        simp [WebhookDelivery.should_retry] at hlt ⊢
        omega

/-- C6 witness: a concrete signed delivery carries the expected
signature header over the exact body. -/
theorem C6_signature_witness :
    getHeader ((WebhookDelivery.mk_init "w" "u" "ev" "pl" (some "sec") 0).send
        (fun key msg => key ++ "|" ++ msg) (fun ev _ _ data => ev ++ ":" ++ data)
        0 HttpOutcome.timeout).request.headers
      "X-Webhook-Signature" = some "sha256=sec|ev:pl" := by
  have h := (C6_signature (fun key msg => key ++ "|" ++ msg)
      (fun ev _ _ data => ev ++ ":" ++ data)
      0 HttpOutcome.timeout (WebhookDelivery.mk_init "w" "u" "ev" "pl" (some "sec") 0)).1
      "sec" rfl (by decide)
  exact h

/-- C7 counterexample: at the moment the worker re-enqueues a failed
task (and throughout the backoff sleep) the task's status is `failed`,
never `retrying`, and it is not reset to `pending` when re-queued. -/
theorem C7_counterexample :
    (workerStep alwaysFail 0 (Task.mk_init "r" 1 0)).requeued = true ∧
    (workerStep alwaysFail 0 (Task.mk_init "r" 1 0)).task.status = "failed" ∧
    (workerStep alwaysFail 0 (Task.mk_init "r" 1 0)).task.status ≠ "retrying" ∧
    (workerStep alwaysFail 0 (Task.mk_init "r" 1 0)).task.status ≠ "pending" := by decide

/-- C7 (amended): a task that fails with attempts remaining is pushed
back as `(task.priority, task)` with its priority unchanged (not
elevated), and its status is `failed` — not `retrying` — during the
backoff wait and while back in the queue. -/
theorem C7_requeue (behav : Nat → Except String String) (now : Nat) (q : WorkerQueue)
    (item : QItem) (rest : Array QItem)
    (hpop : heappop tupLt q.queue = some (item, rest))
    (hreq : (workerStep behav now item.2).requeued = true) :
    WorkerQueue.worker_iteration behav now q =
      some ({ q with queue := heappush tupLt rest
                        ((workerStep behav now item.2).task.priority,
                          (workerStep behav now item.2).task) },
            workerStep behav now item.2) ∧
    (workerStep behav now item.2).task.priority = item.2.priority ∧
    (workerStep behav now item.2).task.status = "failed" := by
  refine ⟨?_, ?_, ?_⟩
  · simp [WorkerQueue.worker_iteration, hpop, hreq]
  · rw [workerStep_task]
    exact execute_fst_priority now (behav item.2.attempts) item.2
  · have h := workerStep_requeued_retry behav now item.2 hreq
    simp only [Task.should_retry, Bool.and_eq_true, beq_iff_eq] at h
    exact h.1

/-- C7 witness: the concrete failing NORMAL-priority task is re-enqueued
with priority 1 and status `failed`. -/
theorem C7_requeue_witness :
    (workerStep alwaysFail 0 (Task.mk_init "r" 1 0)).task.priority = 1 ∧
    (workerStep alwaysFail 0 (Task.mk_init "r" 1 0)).task.status = "failed" := by
  have h := C7_requeue alwaysFail 0 qC7 (1, Task.mk_init "r" 1 0) #[] (by decide) (by decide)
  exact ⟨h.2.1.trans rfl, h.2.2⟩

/-- C8 counterexample: calling `start` twice on a fresh 4-worker pool
leaves 8 spawned worker threads, not the 4 of a single call — `start`
has no guard and is not idempotent. -/
theorem C8_counterexample :
    ((WorkerQueue.init 4).start.start).workers.length = 8 ∧
    ((WorkerQueue.init 4).start).workers.length = 4 ∧
    ((WorkerQueue.init 4).start.start).workers ≠ ((WorkerQueue.init 4).start).workers := by
  decide

/-- C8 (amended): every call of `start` spawns `num_workers` additional
worker threads and appends them to `workers`, so a second call
double-spawns; only the `running` flag is set idempotently. -/
theorem C8_start_spawns (q : WorkerQueue) :
    (q.start).workers.length = q.workers.length + q.num_workers ∧
    (q.start.start).workers.length = q.workers.length + 2 * q.num_workers ∧
    (q.start).running = true := by
  refine ⟨?_, ?_, rfl⟩
  · simp [WorkerQueue.start]
  · simp [WorkerQueue.start]
    omega

/-- C9 counterexample: the result query returns the same Python value
`None` for a pending task (`p`, not ready) and for an unknown id
(`ghost`, not found) — the two outcomes are not distinguishable. -/
theorem C9_counterexample :
    get_task_result qC9 "p" = PyResult.value none ∧
    get_task_result qC9 "ghost" = PyResult.value none := by decide

/-- C9 (amended): the result query returns the stored result when the
task is `completed`, raises an exception carrying the stored error when
`failed`, returns `None` when the task exists in any other state, and
returns `None` when the id is unknown — so the not-ready and not-found
outcomes are both `None` and are not distinguishable from each other
(nor from a completed result of `None`). -/
theorem C9_result_query (q : WorkerQueue) (id : String) :
    (q.get_task_status id = none → get_task_result q id = PyResult.value none) ∧
    (∀ t, q.get_task_status id = some t →
      (t.status = "completed" → get_task_result q id = PyResult.value t.result) ∧
      (t.status = "failed" →
        get_task_result q id = PyResult.raised ("Task failed: " ++ errStr t.error)) ∧
      (t.status ≠ "completed" → t.status ≠ "failed" →
        get_task_result q id = PyResult.value none)) := by
  constructor
  · intro h
    simp [get_task_result, h]
  · intro t h
    refine ⟨?_, ?_, ?_⟩
    · intro hs; simp [get_task_result, h, hs]
    · intro hs; simp [get_task_result, h, hs]
    · intro h1 h2; simp [get_task_result, h, h1, h2]

/-- C9 witness: the unknown id concretely yields `None`. -/
theorem C9_result_query_witness :
    get_task_result qC9 "ghost" = PyResult.value none :=
  (C9_result_query qC9 "ghost").1 (by decide)

/-- C10 counterexample: with no webhook_id filter,
`get_recent_deliveries` sorts the stored `delivery_history` in place:
the history `[w1, w2]` (oldest first) is left reordered as `[w2, w1]`
after the call, so the query is not pure. -/
theorem C10_counterexample :
    ((mC10.get_recent_deliveries none 100).2.delivery_history.map
      (fun d => d.webhook_id)) = ["w2", "w1"] ∧
    (mC10.delivery_history.map (fun d => d.webhook_id)) = ["w1", "w2"] := by decide

/-- C10 (amended): `get_recent_deliveries` leaves the manager state
unchanged whenever a truthy webhook_id filter is supplied (the sort then
runs on a fresh filtered list); with no filter it replaces
`delivery_history` with the same elements stably sorted by `created_at`
descending — membership is preserved but the stored order (on which
oldest-first eviction depends) changes. -/
theorem C10_frame :
    (∀ (m : WebhookManager) (wid : Option String) (limit : Nat),
        truthy wid = true → (m.get_recent_deliveries wid limit).2 = m) ∧
    (∀ (m : WebhookManager) (limit : Nat),
        (m.get_recent_deliveries none limit).2.delivery_history
          = sortDesc m.delivery_history ∧
        ∀ d, d ∈ (m.get_recent_deliveries none limit).2.delivery_history
          ↔ d ∈ m.delivery_history) := by
  constructor
  · intro m wid limit h
    simp [WebhookManager.get_recent_deliveries, h]
  · intro m limit
    constructor
    · simp [WebhookManager.get_recent_deliveries, truthy]
    · intro d
      simp [WebhookManager.get_recent_deliveries, truthy, mem_sortDesc]

/-- C10 witness: a filtered call on the concrete manager leaves its
state untouched. -/
theorem C10_frame_witness :
    (mC10.get_recent_deliveries (some "w1") 5).2 = mC10 :=
  C10_frame.1 mC10 (some "w1") 5 (by decide)

end PassportApp
